import Mathlib

/-!
Verification of the jaeger tracing-stack service module
(`src/pybind/mgr/cephadm/services/jaeger.py`): endpoint resolution for the
jaeger agent / collector / query daemons, the elasticsearch fallback path,
and the dependency-list provider.

The orchestrator state (daemon cache, inventory, spec store) and the shared
helpers from outside this module are modelled as abstract inputs, as the
specification describes them.
-/

/-- Error taxonomy of the module, from the specification (§7): a failed
`assert dd.hostname is not None` is an `invariantViolation`, a failed
`assert spec.es_nodes is not None` is a `missingConfiguration`, and a failed
`assert self.TYPE == daemon_spec.daemon_type` is a `typeMismatch`. -/
inductive JError where
  | invariantViolation
  | missingConfiguration
  | typeMismatch
deriving DecidableEq, Repr

/-- Modelled from the spec: a `DaemonDescription` record of the external
cluster-state cache (the class itself lives outside this module). Only the
attributes read by the jaeger module are modelled: `hostname` (optional in
the data model, asserted present), `ip` (optional) and `ports` (ordered,
possibly empty). -/
structure DaemonDescription where
  hostname : Option String
  ip : Option String
  ports : List Nat
deriving DecidableEq, Repr

/-- Modelled from the spec: the `TracingSpec` desired-state record of the
external spec store; only its optional `es_nodes` comma-separated string is
read by this module. -/
structure TracingSpec where
  es_nodes : Option String
deriving DecidableEq, Repr

/-- Modelled from the spec: an opaque `ServiceSpec` value. It is accepted by
`get_dependencies` but never read by the jaeger module. -/
structure ServiceSpec where
  service_type : String
deriving DecidableEq, Repr

/-- Modelled from the spec: the slice of `CephadmDaemonDeploySpec` the jaeger
module reads and writes: `daemon_type` and `service_name` are read,
`final_config` and `deps` are written. `final_config` is `none` until a
builder assigns it. -/
structure CephadmDaemonDeploySpec where
  daemon_type : String
  service_name : String
  final_config : Option (List (String × String))
  deps : List String
deriving DecidableEq, Repr

/-- Modelled from the spec: the external collaborators of §6, bundled as one
read-only snapshot. `daemons` is `mgr.cache.get_daemons_by_type`, `get_addr`
is `mgr.inventory.get_addr`, and `active_specs` is
`mgr.spec_store.active_specs` keyed by service name. -/
structure OrchState where
  daemons : String → List DaemonDescription
  get_addr : String → String
  active_specs : String → TracingSpec

/-- Modelled from the spec: the shared URL-building helper `build_url` from
`mgr_util` (outside this module). With no scheme it produces a netloc-style
`//host:port` string; the jaeger module strips the leading path-separator
artifact afterwards. -/
def build_url (host : String) (port : Nat) : String :=
  "//" ++ host ++ ":" ++ toString port

/-- Python `str.lstrip('/')`: drop every leading `/` character. -/
def lstripSlash (s : String) : String :=
  String.mk (s.toList.dropWhile (fun c => c = '/'))

deriving instance DecidableEq for Except

/-- Python's string ordering, used by `sorted(...)`: lexicographic comparison
of the code-point sequences, i.e. the lexicographic order on `String.data`. -/
def strLe (a b : String) : Prop := a.data ≤ b.data

instance : DecidableRel strLe := fun a b =>
  inferInstanceAs (Decidable (a.data ≤ b.data))

instance : IsTotal String strLe := ⟨fun a b => le_total a.data b.data⟩

instance : IsTrans String strLe := ⟨fun _ _ _ h₁ h₂ => le_trans h₁ h₂⟩

instance : IsAntisymm String strLe :=
  ⟨fun a b h₁ h₂ => by
    cases a; cases b
    exact congrArg String.mk (le_antisymm h₁ h₂)⟩

/-- Python `str.split(",")`, accumulator form: split at every comma, keeping
empty tokens, so the result of splitting the empty string is `[""]`. -/
def splitCommaAux : List Char → List Char → List String
  | [], acc => [String.mk acc.reverse]
  | c :: rest, acc =>
    if c = ',' then String.mk acc.reverse :: splitCommaAux rest []
    else splitCommaAux rest (c :: acc)

/-- Python `str.split(",")`. -/
def splitComma (s : String) : List String := splitCommaAux s.toList []

def ElasticSearchService.TYPE : String := "elasticsearch"

def ElasticSearchService.DEFAULT_SERVICE_PORT : Nat := 9200

def JaegerAgentService.TYPE : String := "jaeger-agent"

def JaegerAgentService.DEFAULT_SERVICE_PORT : Nat := 6799

def JaegerCollectorService.TYPE : String := "jaeger-collector"

def JaegerCollectorService.DEFAULT_SERVICE_PORT : Nat := 14250

def JaegerQueryService.TYPE : String := "jaeger-query"

def JaegerQueryService.DEFAULT_SERVICE_PORT : Nat := 16686

/-- The loop body shared verbatim by `JaegerAgentService.get_dependencies`
and `JaegerAgentService.prepare_create`: for each jaeger-collector daemon,
assert the hostname is present, take `ports[0]` or the collector default
port, and build the stripped `host:port` url. A record without a hostname
aborts the whole loop, as the Python assert does. -/
def collectorUrls : List DaemonDescription → Except JError (List String)
  | [] => .ok []
  | dd :: rest =>
    match dd.hostname with
    | none => .error .invariantViolation
    | some h =>
      let port := dd.ports.headD JaegerCollectorService.DEFAULT_SERVICE_PORT
      let url := lstripSlash (build_url h port)
      match collectorUrls rest with
      | .error e => .error e
      | .ok urls => .ok (url :: urls)

/-- `JaegerAgentService.get_dependencies`: collect the jaeger-collector
urls and return them sorted. The optional `spec` and `daemon_type`
parameters are accepted but unused, as in the source. -/
def JaegerAgentService.get_dependencies (mgr : OrchState)
    (spec : Option ServiceSpec) (daemon_type : Option String) :
    Except JError (List String) :=
  match collectorUrls (mgr.daemons JaegerCollectorService.TYPE) with
  | .error e => .error e
  | .ok deps => .ok (deps.insertionSort strLe)

/-- `JaegerAgentService.prepare_create`: assert the daemon type, collect the
jaeger-collector urls (unsorted, in cache iteration order), assign
`final_config` with their comma-join as `collector_nodes`, then assign
`deps` from `get_dependencies`. The returned pair carries the deploy spec
with every mutation performed before any raised error, plus the error. -/
def JaegerAgentService.prepare_create (mgr : OrchState)
    (daemon_spec : CephadmDaemonDeploySpec) :
    CephadmDaemonDeploySpec × Option JError :=
  if JaegerAgentService.TYPE ≠ daemon_spec.daemon_type then
    (daemon_spec, some .typeMismatch)
  else
    match collectorUrls (mgr.daemons JaegerCollectorService.TYPE) with
    | .error e => (daemon_spec, some e)
    | .ok collectors =>
      let ds := { daemon_spec with
        final_config := some [("collector_nodes", String.intercalate "," collectors)] }
      match JaegerAgentService.get_dependencies mgr none none with
      | .error e => (ds, some e)
      | .ok deps => ({ ds with deps := deps }, none)

/-- The loop of `get_elasticsearch_nodes`: for each elasticsearch daemon,
assert the hostname is present, use `dd.ip` when truthy (present and
non-empty) else look the hostname up in the inventory, take `ports[0]` or
the elasticsearch default port, and build the `http://`-prefixed url. -/
def esUrls (get_addr : String → String) :
    List DaemonDescription → Except JError (List String)
  | [] => .ok []
  | dd :: rest =>
    match dd.hostname with
    | none => .error .invariantViolation
    | some h =>
      let addr := match dd.ip with
        | some i => if i = "" then get_addr h else i
        | none => get_addr h
      let port := dd.ports.headD ElasticSearchService.DEFAULT_SERVICE_PORT
      let url := lstripSlash (build_url addr port)
      match esUrls get_addr rest with
      | .error e => .error e
      | .ok urls => .ok (("http://" ++ url) :: urls)

/-- `get_elasticsearch_nodes`: resolve the live elasticsearch daemons; when
none exist, fall back to the active `TracingSpec.es_nodes` string, which is
asserted present, split on commas and `http://`-prefixed in the given
order. -/
def get_elasticsearch_nodes (mgr : OrchState)
    (daemon_spec : CephadmDaemonDeploySpec) : Except JError (List String) :=
  match esUrls mgr.get_addr (mgr.daemons ElasticSearchService.TYPE) with
  | .error e => .error e
  | .ok elasticsearch_nodes =>
    if elasticsearch_nodes.length = 0 then
      let spec := mgr.active_specs daemon_spec.service_name
      match spec.es_nodes with
      | none => .error .missingConfiguration
      | some es =>
        .ok ((splitComma es).map (fun url => "http://" ++ url))
    else
      .ok elasticsearch_nodes

/-- `JaegerCollectorService.prepare_create`: assert the daemon type, resolve
the elasticsearch nodes, assign their comma-join as `elasticsearch_nodes`. -/
def JaegerCollectorService.prepare_create (mgr : OrchState)
    (daemon_spec : CephadmDaemonDeploySpec) :
    CephadmDaemonDeploySpec × Option JError :=
  if JaegerCollectorService.TYPE ≠ daemon_spec.daemon_type then
    (daemon_spec, some .typeMismatch)
  else
    match get_elasticsearch_nodes mgr daemon_spec with
    | .error e => (daemon_spec, some e)
    | .ok elasticsearch_nodes =>
      ({ daemon_spec with
          final_config :=
            some [("elasticsearch_nodes",
              String.intercalate "," elasticsearch_nodes)] }, none)

/-- `JaegerQueryService.prepare_create`: identical logic to the collector
builder, kept as a distinct entry point as in the source. -/
def JaegerQueryService.prepare_create (mgr : OrchState)
    (daemon_spec : CephadmDaemonDeploySpec) :
    CephadmDaemonDeploySpec × Option JError :=
  if JaegerQueryService.TYPE ≠ daemon_spec.daemon_type then
    (daemon_spec, some .typeMismatch)
  else
    match get_elasticsearch_nodes mgr daemon_spec with
    | .error e => (daemon_spec, some e)
    | .ok elasticsearch_nodes =>
      ({ daemon_spec with
          final_config :=
            some [("elasticsearch_nodes",
              String.intercalate "," elasticsearch_nodes)] }, none)

/-- `ElasticSearchService.prepare_create`: the search-index builder is a
no-op pass-through after the daemon-type assert. -/
def ElasticSearchService.prepare_create (mgr : OrchState)
    (daemon_spec : CephadmDaemonDeploySpec) :
    CephadmDaemonDeploySpec × Option JError :=
  if ElasticSearchService.TYPE ≠ daemon_spec.daemon_type then
    (daemon_spec, some .typeMismatch)
  else
    (daemon_spec, none)

/-! Abbreviations used by the lemmas below: the per-record endpoint value of
each resolver loop, and the ports normalisation the port-selection rule is
stated with. -/

/-- The endpoint string the collector loop produces for one record whose
hostname is present. -/
def collectorNode (dd : DaemonDescription) : String :=
  lstripSlash (build_url (dd.hostname.getD "")
    (dd.ports.headD JaegerCollectorService.DEFAULT_SERVICE_PORT))

/-- The endpoint string the elasticsearch loop produces for one record whose
hostname is present. -/
def esNode (get_addr : String → String) (dd : DaemonDescription) : String :=
  let addr := match dd.ip with
    | some i => if i = "" then get_addr (dd.hostname.getD "") else i
    | none => get_addr (dd.hostname.getD "")
  "http://" ++ lstripSlash
    (build_url addr (dd.ports.headD ElasticSearchService.DEFAULT_SERVICE_PORT))

/-- Replace a record's port list by the single port the resolvers select:
the first listed port, or the given default when the list is empty. -/
def withFirstOrDefaultPort (d : Nat) (dd : DaemonDescription) : DaemonDescription :=
  { dd with ports := [dd.ports.headD d] }

/-! Concrete snapshots used by the witnesses and counterexamples. -/

def ddA : DaemonDescription := { hostname := some "a", ip := none, ports := [] }

def ddB : DaemonDescription := { hostname := some "b", ip := none, ports := [] }

def ddEmptyHost : DaemonDescription := { hostname := some "", ip := none, ports := [] }

def ddNoneHost : DaemonDescription := { hostname := none, ip := none, ports := [] }

def ddEsIp : DaemonDescription :=
  { hostname := some "h", ip := some "10.0.0.2", ports := [9200] }

def ddEsEmptyIp : DaemonDescription :=
  { hostname := some "h", ip := some "", ports := [9200] }

def addr0 : String → String := fun _ => "10.9.9.9"

def specsNone : String → TracingSpec := fun _ => { es_nodes := none }

def specsAB : String → TracingSpec := fun _ => { es_nodes := some "a:9200,b:9200" }

def specsEmpty : String → TracingSpec := fun _ => { es_nodes := some "" }

def dsAgent : CephadmDaemonDeploySpec :=
  { daemon_type := JaegerAgentService.TYPE, service_name := "jaeger-agent",
    final_config := none, deps := [] }

def dsCollector : CephadmDaemonDeploySpec :=
  { daemon_type := JaegerCollectorService.TYPE, service_name := "jaeger-collector",
    final_config := none, deps := [] }

def dsQuery : CephadmDaemonDeploySpec :=
  { daemon_type := JaegerQueryService.TYPE, service_name := "jaeger-query",
    final_config := none, deps := [] }

/-- Collector daemons at hosts b and a, registered in that order. -/
def stBA : OrchState :=
  { daemons := fun t => if t = JaegerCollectorService.TYPE then [ddB, ddA] else [],
    get_addr := addr0, active_specs := specsNone }

/-- Collector daemons at hosts a and b, registered in that order. -/
def stAB : OrchState :=
  { daemons := fun t => if t = JaegerCollectorService.TYPE then [ddA, ddB] else [],
    get_addr := addr0, active_specs := specsNone }

/-- One collector daemon whose hostname is the empty string. -/
def stEmptyHost : OrchState :=
  { daemons := fun t => if t = JaegerCollectorService.TYPE then [ddEmptyHost] else [],
    get_addr := addr0, active_specs := specsNone }

/-- One collector daemon whose hostname is absent. -/
def stNoneHost : OrchState :=
  { daemons := fun t => if t = JaegerCollectorService.TYPE then [ddNoneHost] else [],
    get_addr := addr0, active_specs := specsNone }

/-- One elasticsearch daemon with an explicit non-empty ip. -/
def stEsIp : OrchState :=
  { daemons := fun t => if t = ElasticSearchService.TYPE then [ddEsIp] else [],
    get_addr := addr0, active_specs := specsNone }

/-- One elasticsearch daemon whose ip is present but empty. -/
def stEsEmptyIp : OrchState :=
  { daemons := fun t => if t = ElasticSearchService.TYPE then [ddEsEmptyIp] else [],
    get_addr := addr0, active_specs := specsNone }

/-- No daemons at all; the tracing spec has no es_nodes value. -/
def stNoEs : OrchState :=
  { daemons := fun _ => [], get_addr := addr0, active_specs := specsNone }

/-- No daemons at all; es_nodes is the string a:9200,b:9200. -/
def stFallbackAB : OrchState :=
  { daemons := fun _ => [], get_addr := addr0, active_specs := specsAB }

/-- No daemons at all; es_nodes is present but is the empty string. -/
def stFallbackEmpty : OrchState :=
  { daemons := fun _ => [], get_addr := addr0, active_specs := specsEmpty }

/-- Daemons with multi-element and empty port lists, for the port-selection
rule. -/
def stPorts : OrchState :=
  { daemons := fun t =>
      if t = JaegerCollectorService.TYPE then
        [{ hostname := some "c", ip := none, ports := [9201, 1] },
         { hostname := some "d", ip := none, ports := [] }]
      else if t = ElasticSearchService.TYPE then
        [{ hostname := some "e", ip := none, ports := [9301, 2] },
         { hostname := some "f", ip := none, ports := [] }]
      else [],
    get_addr := addr0, active_specs := specsNone }

/-- The same snapshot as `stPorts` with every port list replaced by the
single selected port. -/
def stPortsNorm : OrchState :=
  { daemons := fun t =>
      if t = JaegerCollectorService.TYPE then
        [{ hostname := some "c", ip := none, ports := [9201] },
         { hostname := some "d", ip := none,
           ports := [JaegerCollectorService.DEFAULT_SERVICE_PORT] }]
      else if t = ElasticSearchService.TYPE then
        [{ hostname := some "e", ip := none, ports := [9301] },
         { hostname := some "f", ip := none,
           ports := [ElasticSearchService.DEFAULT_SERVICE_PORT] }]
      else [],
    get_addr := addr0, active_specs := specsNone }

/-! General lemmas about the two resolver loops. -/

theorem collectorUrls_ok (l : List DaemonDescription)
    (h : ∀ dd ∈ l, dd.hostname ≠ none) :
    collectorUrls l = .ok (l.map collectorNode) := by
  induction l with
  | nil => rfl
  | cons dd rest ih =>
    cases hdd : dd.hostname with
    | none => exact absurd hdd (h dd (List.mem_cons_self dd rest))
    | some s =>
      have hrest := ih (fun a ha => h a (List.mem_cons_of_mem _ ha))
      simp only [collectorUrls, hdd, hrest, List.map_cons]
      simp [collectorNode, hdd]

theorem collectorUrls_error (l : List DaemonDescription)
    (h : ∃ dd ∈ l, dd.hostname = none) :
    collectorUrls l = .error .invariantViolation := by
  induction l with
  | nil => simp at h
  | cons dd rest ih =>
    cases hdd : dd.hostname with
    | none => simp [collectorUrls, hdd]
    | some s =>
      have h' : ∃ a ∈ rest, a.hostname = none := by
        rcases h with ⟨a, ha, hn⟩
        cases List.mem_cons.mp ha with
        | inl he => rw [he, hdd] at hn; cases hn
        | inr hm => exact ⟨a, hm, hn⟩
      simp [collectorUrls, hdd, ih h']

theorem esUrls_ok (f : String → String) (l : List DaemonDescription)
    (h : ∀ dd ∈ l, dd.hostname ≠ none) :
    esUrls f l = .ok (l.map (esNode f)) := by
  induction l with
  | nil => rfl
  | cons dd rest ih =>
    cases hdd : dd.hostname with
    | none => exact absurd hdd (h dd (List.mem_cons_self dd rest))
    | some s =>
      have hrest := ih (fun a ha => h a (List.mem_cons_of_mem _ ha))
      simp only [esUrls, hdd, hrest, List.map_cons]
      simp [esNode, hdd]

theorem esUrls_error (f : String → String) (l : List DaemonDescription)
    (h : ∃ dd ∈ l, dd.hostname = none) :
    esUrls f l = .error .invariantViolation := by
  induction l with
  | nil => simp at h
  | cons dd rest ih =>
    cases hdd : dd.hostname with
    | none => simp [esUrls, hdd]
    | some s =>
      have h' : ∃ a ∈ rest, a.hostname = none := by
        rcases h with ⟨a, ha, hn⟩
        cases List.mem_cons.mp ha with
        | inl he => rw [he, hdd] at hn; cases hn
        | inr hm => exact ⟨a, hm, hn⟩
      simp [esUrls, hdd, ih h']

theorem collectorUrls_cases (l : List DaemonDescription) :
    collectorUrls l = .error .invariantViolation ∨
      collectorUrls l = .ok (l.map collectorNode) := by
  by_cases h : ∃ dd ∈ l, dd.hostname = none
  · exact Or.inl (collectorUrls_error l h)
  · push_neg at h
    exact Or.inr (collectorUrls_ok l h)

theorem esUrls_cases (f : String → String) (l : List DaemonDescription) :
    esUrls f l = .error .invariantViolation ∨
      esUrls f l = .ok (l.map (esNode f)) := by
  by_cases h : ∃ dd ∈ l, dd.hostname = none
  · exact Or.inl (esUrls_error f l h)
  · push_neg at h
    exact Or.inr (esUrls_ok f l h)

theorem collectorUrls_map_first (l : List DaemonDescription) :
    collectorUrls
        (l.map (withFirstOrDefaultPort JaegerCollectorService.DEFAULT_SERVICE_PORT)) =
      collectorUrls l := by
  induction l with
  | nil => rfl
  | cons dd rest ih =>
    cases hdd : dd.hostname with
    | none => simp [collectorUrls, withFirstOrDefaultPort, hdd]
    | some s =>
      simp only [List.map_cons, collectorUrls, withFirstOrDefaultPort, hdd, ih]
      cases dd.ports <;> rfl

theorem esUrls_map_first (f : String → String) (l : List DaemonDescription) :
    esUrls f
        (l.map (withFirstOrDefaultPort ElasticSearchService.DEFAULT_SERVICE_PORT)) =
      esUrls f l := by
  induction l with
  | nil => rfl
  | cons dd rest ih =>
    cases hdd : dd.hostname with
    | none => simp [esUrls, withFirstOrDefaultPort, hdd]
    | some s =>
      simp only [List.map_cons, esUrls, withFirstOrDefaultPort, hdd, ih]
      cases dd.ports <;> rfl

theorem esUrls_addr_congr (f g : String → String) (l : List DaemonDescription)
    (h : ∀ dd ∈ l, ∃ i, dd.ip = some i ∧ i ≠ "") :
    esUrls f l = esUrls g l := by
  induction l with
  | nil => rfl
  | cons dd rest ih =>
    have hrest := ih (fun a ha => h a (List.mem_cons_of_mem _ ha))
    cases hdd : dd.hostname with
    | none => simp [esUrls, hdd]
    | some s =>
      rcases h dd (List.mem_cons_self dd rest) with ⟨i, hip, hne⟩
      simp [esUrls, hdd, hip, hne, hrest]

theorem get_dependencies_perm (mgr mgr' : OrchState)
    (hp : (mgr.daemons JaegerCollectorService.TYPE).Perm
      (mgr'.daemons JaegerCollectorService.TYPE)) :
    JaegerAgentService.get_dependencies mgr none none =
      JaegerAgentService.get_dependencies mgr' none none := by
  unfold JaegerAgentService.get_dependencies
  by_cases h : ∃ dd ∈ mgr.daemons JaegerCollectorService.TYPE, dd.hostname = none
  · have h' : ∃ dd ∈ mgr'.daemons JaegerCollectorService.TYPE, dd.hostname = none := by
      rcases h with ⟨a, ha, hn⟩
      exact ⟨a, hp.mem_iff.mp ha, hn⟩
    rw [collectorUrls_error _ h, collectorUrls_error _ h']
  · push_neg at h
    have h' : ∀ dd ∈ mgr'.daemons JaegerCollectorService.TYPE, dd.hostname ≠ none :=
      fun a ha => h a (hp.mem_iff.mpr ha)
    rw [collectorUrls_ok _ h, collectorUrls_ok _ h']
    have hperm :
        ((mgr.daemons JaegerCollectorService.TYPE).map collectorNode).insertionSort strLe
          = ((mgr'.daemons JaegerCollectorService.TYPE).map collectorNode).insertionSort strLe :=
      List.eq_of_perm_of_sorted
        ((List.perm_insertionSort strLe _).trans
          ((hp.map collectorNode).trans (List.perm_insertionSort strLe _).symm))
        (List.sorted_insertionSort strLe _) (List.sorted_insertionSort strLe _)
    simp [hperm]

theorem get_dependencies_sorted (mgr : OrchState)
    (s : Option ServiceSpec) (dt : Option String) (deps : List String)
    (h : JaegerAgentService.get_dependencies mgr s dt = .ok deps) :
    deps.Sorted strLe := by
  unfold JaegerAgentService.get_dependencies at h
  cases hc : collectorUrls (mgr.daemons JaegerCollectorService.TYPE) with
  | error e => rw [hc] at h; cases h
  | ok c =>
    rw [hc] at h
    simp only [Except.ok.injEq] at h
    rw [← h]
    exact List.sorted_insertionSort strLe c

theorem agent_prepare_create_ok (mgr : OrchState) (ds : CephadmDaemonDeploySpec)
    (hT : JaegerAgentService.TYPE = ds.daemon_type) (c : List String)
    (hc : collectorUrls (mgr.daemons JaegerCollectorService.TYPE) = .ok c) :
    JaegerAgentService.prepare_create mgr ds =
      ({ ds with
          final_config := some [("collector_nodes", String.intercalate "," c)],
          deps := c.insertionSort strLe }, none) := by
  unfold JaegerAgentService.prepare_create JaegerAgentService.get_dependencies
  simp [hT, hc]

/-- C1 (counterexample): with the collector daemons registered in the order
b, a, the agent builder's collector_nodes value is the iteration-order join
"b:14250,a:14250", not the sorted join "a:14250,b:14250" the claim
requires for every registration order. -/
theorem C1_counterexample :
    (JaegerAgentService.prepare_create stBA dsAgent).1.final_config =
      some [("collector_nodes", "b:14250,a:14250")] ∧
    (JaegerAgentService.prepare_create stBA dsAgent).1.final_config ≠
      some [("collector_nodes", "a:14250,b:14250")] := by
  exact ⟨by decide, by decide⟩

/-- C1 (amended): the endpoint list produced by live discovery through
get_dependencies is lexicographically sorted ascending and invariant under
permutation of the daemon records; the agent builder's collector_nodes
config value, however, is the comma-join in cache iteration order, so for
collector daemons at hosts b and a it equals the sorted join only when the
iteration order is already sorted: order a, b yields "a:14250,b:14250" and
order b, a yields "b:14250,a:14250", while the deps field is the sorted
["a:14250", "b:14250"] in both cases. -/
theorem C1_amended :
    (∀ mgr mgr' : OrchState,
      (mgr.daemons JaegerCollectorService.TYPE).Perm
        (mgr'.daemons JaegerCollectorService.TYPE) →
      JaegerAgentService.get_dependencies mgr none none =
        JaegerAgentService.get_dependencies mgr' none none) ∧
    (∀ (mgr : OrchState) (deps : List String),
      JaegerAgentService.get_dependencies mgr none none = .ok deps →
      deps.Sorted strLe) ∧
    (JaegerAgentService.prepare_create stAB dsAgent).1.final_config =
      some [("collector_nodes", "a:14250,b:14250")] ∧
    (JaegerAgentService.prepare_create stBA dsAgent).1.final_config =
      some [("collector_nodes", "b:14250,a:14250")] ∧
    (JaegerAgentService.prepare_create stAB dsAgent).1.deps = ["a:14250", "b:14250"] ∧
    (JaegerAgentService.prepare_create stBA dsAgent).1.deps = ["a:14250", "b:14250"] := by
  refine ⟨get_dependencies_perm,
    fun mgr deps h => get_dependencies_sorted mgr none none deps h,
    by decide, by decide, by decide, by decide⟩

/-- C1 witness: the permutation-invariance and sortedness parts applied to
the two concrete registration orders of the same two collector daemons. -/
theorem C1_witness :
    JaegerAgentService.get_dependencies stBA none none =
      JaegerAgentService.get_dependencies stAB none none ∧
    List.Sorted strLe ["a:14250", "b:14250"] :=
  ⟨C1_amended.1 stBA stAB (by decide),
   C1_amended.2.1 stBA ["a:14250", "b:14250"] (by decide)⟩

/-- C2 (counterexample): over the snapshot with collectors registered in the
order b, a, the comma-join of the get_dependencies list is
"a:14250,b:14250" while the collector_nodes value prepared by the agent
builder over the same snapshot is "b:14250,a:14250": the two outputs are
not equal. -/
theorem C2_counterexample :
    JaegerAgentService.get_dependencies stBA none none =
      .ok ["a:14250", "b:14250"] ∧
    String.intercalate "," ["a:14250", "b:14250"] = "a:14250,b:14250" ∧
    (JaegerAgentService.prepare_create stBA dsAgent).1.final_config =
      some [("collector_nodes", "b:14250,a:14250")] ∧
    "a:14250,b:14250" ≠ "b:14250,a:14250" := by
  exact ⟨by decide, by decide, by decide, by decide⟩

/-- C2 (amended): on every successful agent preparation the config value and
the dependency list come from the same per-record resolution, but the deps
field is additionally sorted: collector_nodes is the comma-join of a list
of collector endpoints of which deps is a sorted permutation, and the
comma-join of deps equals collector_nodes whenever that list is already
sorted. -/
theorem C2_amended (mgr : OrchState) (ds : CephadmDaemonDeploySpec)
    (h : (JaegerAgentService.prepare_create mgr ds).2 = none) :
    ∃ collectors : List String,
      (JaegerAgentService.prepare_create mgr ds).1.final_config =
        some [("collector_nodes", String.intercalate "," collectors)] ∧
      (JaegerAgentService.prepare_create mgr ds).1.deps.Perm collectors ∧
      List.Sorted strLe (JaegerAgentService.prepare_create mgr ds).1.deps ∧
      (List.Sorted strLe collectors →
        String.intercalate "," (JaegerAgentService.prepare_create mgr ds).1.deps =
          String.intercalate "," collectors) := by
  by_cases hT : JaegerAgentService.TYPE = ds.daemon_type
  · cases hc : collectorUrls (mgr.daemons JaegerCollectorService.TYPE) with
    | error e =>
      unfold JaegerAgentService.prepare_create at h
      simp [hT, hc] at h
    | ok c =>
      rw [agent_prepare_create_ok mgr ds hT c hc]
      refine ⟨c, rfl, List.perm_insertionSort strLe c,
        List.sorted_insertionSort strLe c, fun hs => ?_⟩
      rw [List.eq_of_perm_of_sorted (List.perm_insertionSort strLe c)
        (List.sorted_insertionSort strLe c) hs]
  · unfold JaegerAgentService.prepare_create at h
    simp [hT] at h

/-- C2 witness: the amended statement at the snapshot with collectors
registered in sorted order a, b. -/
theorem C2_witness :
    ∃ collectors : List String,
      (JaegerAgentService.prepare_create stAB dsAgent).1.final_config =
        some [("collector_nodes", String.intercalate "," collectors)] ∧
      (JaegerAgentService.prepare_create stAB dsAgent).1.deps.Perm collectors ∧
      List.Sorted strLe (JaegerAgentService.prepare_create stAB dsAgent).1.deps ∧
      (List.Sorted strLe collectors →
        String.intercalate "," (JaegerAgentService.prepare_create stAB dsAgent).1.deps =
          String.intercalate "," collectors) :=
  C2_amended stAB dsAgent (by decide)

/-- C3: get_elasticsearch_nodes fails with missingConfiguration exactly when
the snapshot has no elasticsearch daemons and the active TracingSpec has no
es_nodes value; and whenever at least one elasticsearch daemon exists the
result does not depend on the spec store at all, so the es_nodes field is
never consulted and cannot cause failure. -/
theorem C3 (mgr : OrchState) (ds : CephadmDaemonDeploySpec) :
    (get_elasticsearch_nodes mgr ds = .error .missingConfiguration ↔
      mgr.daemons ElasticSearchService.TYPE = [] ∧
        (mgr.active_specs ds.service_name).es_nodes = none) ∧
    (mgr.daemons ElasticSearchService.TYPE ≠ [] →
      ∀ f : String → TracingSpec,
        get_elasticsearch_nodes { mgr with active_specs := f } ds =
          get_elasticsearch_nodes mgr ds) := by
  constructor
  · cases hl : mgr.daemons ElasticSearchService.TYPE with
    | nil =>
      unfold get_elasticsearch_nodes
      rw [hl]
      cases hes : (mgr.active_specs ds.service_name).es_nodes with
      | none => simp [esUrls, hes]
      | some es => simp [esUrls, hes]
    | cons dd rest =>
      unfold get_elasticsearch_nodes
      rw [hl]
      rcases esUrls_cases mgr.get_addr (dd :: rest) with hc | hc <;> rw [hc] <;> simp
  · intro hne f
    have hred : get_elasticsearch_nodes { mgr with active_specs := f } ds =
        match esUrls mgr.get_addr (mgr.daemons ElasticSearchService.TYPE) with
        | .error e => .error e
        | .ok elasticsearch_nodes =>
          if elasticsearch_nodes.length = 0 then
            match (f ds.service_name).es_nodes with
            | none => .error .missingConfiguration
            | some es => .ok ((splitComma es).map (fun url => "http://" ++ url))
          else .ok elasticsearch_nodes := rfl
    rw [hred]
    unfold get_elasticsearch_nodes
    cases hl : mgr.daemons ElasticSearchService.TYPE with
    | nil => exact absurd hl hne
    | cons dd rest =>
      rcases esUrls_cases mgr.get_addr (dd :: rest) with hc | hc <;>
        rw [hc] <;> simp

/-- C3 witness: with no elasticsearch daemons and no es_nodes value the
resolver fails with missingConfiguration, and with one live elasticsearch
daemon the result is unchanged when the spec store is replaced. -/
theorem C3_witness :
    get_elasticsearch_nodes stNoEs dsCollector = .error .missingConfiguration ∧
    get_elasticsearch_nodes { stEsIp with active_specs := specsAB } dsCollector =
      get_elasticsearch_nodes stEsIp dsCollector :=
  ⟨(C3 stNoEs dsCollector).1.mpr ⟨rfl, rfl⟩,
   (C3 stEsIp dsCollector).2 (by decide) specsAB⟩

/-- C4: with no live elasticsearch daemons and es_nodes set to
"a:9200,b:9200", the fallback resolver returns exactly
["http://a:9200", "http://b:9200"], in the literal comma-split order. -/
theorem C4 (mgr : OrchState) (ds : CephadmDaemonDeploySpec)
    (hl : mgr.daemons ElasticSearchService.TYPE = [])
    (hes : (mgr.active_specs ds.service_name).es_nodes = some "a:9200,b:9200") :
    get_elasticsearch_nodes mgr ds = .ok ["http://a:9200", "http://b:9200"] := by
  unfold get_elasticsearch_nodes
  rw [hl]
  simp [esUrls, hes]
  decide

/-- C4 witness: the fallback at the concrete snapshot with no daemons and
es_nodes = "a:9200,b:9200". -/
theorem C4_witness :
    get_elasticsearch_nodes stFallbackAB dsQuery =
      .ok ["http://a:9200", "http://b:9200"] :=
  C4 stFallbackAB dsQuery rfl rfl

/-- C5: port selection — replacing every daemon record's port list by the
single selected port (the first listed port, or the service-type default
9200 / 14250 when the list is empty) leaves every resolver output
unchanged: the first port is used, all later ports are ignored, and the
default is substituted exactly for empty lists. -/
theorem C5 (mgr mgr' : OrchState) (ds : CephadmDaemonDeploySpec)
    (hc : mgr'.daemons JaegerCollectorService.TYPE =
      (mgr.daemons JaegerCollectorService.TYPE).map
        (withFirstOrDefaultPort JaegerCollectorService.DEFAULT_SERVICE_PORT))
    (he : mgr'.daemons ElasticSearchService.TYPE =
      (mgr.daemons ElasticSearchService.TYPE).map
        (withFirstOrDefaultPort ElasticSearchService.DEFAULT_SERVICE_PORT))
    (ha : mgr'.get_addr = mgr.get_addr)
    (hs : mgr'.active_specs = mgr.active_specs) :
    (∀ (s : Option ServiceSpec) (dt : Option String),
      JaegerAgentService.get_dependencies mgr' s dt =
        JaegerAgentService.get_dependencies mgr s dt) ∧
    JaegerAgentService.prepare_create mgr' ds =
      JaegerAgentService.prepare_create mgr ds ∧
    get_elasticsearch_nodes mgr' ds = get_elasticsearch_nodes mgr ds := by
  have hcu : collectorUrls (mgr'.daemons JaegerCollectorService.TYPE) =
      collectorUrls (mgr.daemons JaegerCollectorService.TYPE) := by
    rw [hc, collectorUrls_map_first]
  have heu : esUrls mgr'.get_addr (mgr'.daemons ElasticSearchService.TYPE) =
      esUrls mgr.get_addr (mgr.daemons ElasticSearchService.TYPE) := by
    rw [he, ha, esUrls_map_first]
  refine ⟨?_, ?_, ?_⟩
  · intro s dt
    unfold JaegerAgentService.get_dependencies
    rw [hcu]
  · unfold JaegerAgentService.prepare_create JaegerAgentService.get_dependencies
    rw [hcu]
  · unfold get_elasticsearch_nodes
    rw [heu, hs]

/-- C5 witness: the snapshot with port lists [9201, 1], [], [9301, 2], []
resolves identically to its normalisation with single-port lists [9201],
[14250], [9301], [9200]. -/
theorem C5_witness :
    JaegerAgentService.prepare_create stPortsNorm dsAgent =
      JaegerAgentService.prepare_create stPorts dsAgent ∧
    get_elasticsearch_nodes stPortsNorm dsCollector =
      get_elasticsearch_nodes stPorts dsCollector :=
  ⟨(C5 stPorts stPortsNorm dsAgent (by decide) (by decide) rfl rfl).2.1,
   (C5 stPorts stPortsNorm dsCollector (by decide) (by decide) rfl rfl).2.2⟩

/-- C6 (counterexample): an elasticsearch daemon whose ip field is present
but empty: the resolver performs the inventory hostname lookup (the
inventory maps every host to 10.9.9.9) even though ip is present, so the
lookup is not performed only when ip is absent. -/
theorem C6_counterexample :
    ddEsEmptyIp.ip = some "" ∧
    get_elasticsearch_nodes stEsEmptyIp dsCollector = .ok ["http://10.9.9.9:9200"] ∧
    (Except.ok ["http://10.9.9.9:9200"] : Except JError (List String)) ≠
      .ok ["http://:9200"] := by
  exact ⟨rfl, by decide, by decide⟩

/-- C6 (amended): the elasticsearch resolver uses the record's explicit ip
when it is present and non-empty, and performs the inventory lookup when ip
is absent or the empty string; in particular a daemon record with
ip 10.0.0.2 and port 9200 resolves to http://10.0.0.2:9200 for every
inventory function, i.e. without any hostname lookup. -/
theorem C6_amended (mgr : OrchState) (ds : CephadmDaemonDeploySpec) :
    ((∀ dd ∈ mgr.daemons ElasticSearchService.TYPE,
        dd.ip ≠ none ∧ dd.ip ≠ some "") →
      ∀ f : String → String,
        get_elasticsearch_nodes { mgr with get_addr := f } ds =
          get_elasticsearch_nodes mgr ds) ∧
    (mgr.daemons ElasticSearchService.TYPE = [ddEsIp] →
      get_elasticsearch_nodes mgr ds = .ok ["http://10.0.0.2:9200"]) := by
  constructor
  · intro h f
    have h' : ∀ dd ∈ mgr.daemons ElasticSearchService.TYPE,
        ∃ i, dd.ip = some i ∧ i ≠ "" := by
      intro dd hdd
      rcases h dd hdd with ⟨h1, h2⟩
      cases hip : dd.ip with
      | none => exact absurd hip h1
      | some i =>
        refine ⟨i, rfl, fun hi => ?_⟩
        rw [hi] at hip
        exact h2 hip
    have heu : esUrls f (mgr.daemons ElasticSearchService.TYPE) =
        esUrls mgr.get_addr (mgr.daemons ElasticSearchService.TYPE) :=
      esUrls_addr_congr f mgr.get_addr _ h'
    have hred : get_elasticsearch_nodes { mgr with get_addr := f } ds =
        match esUrls f (mgr.daemons ElasticSearchService.TYPE) with
        | .error e => .error e
        | .ok elasticsearch_nodes =>
          if elasticsearch_nodes.length = 0 then
            match (mgr.active_specs ds.service_name).es_nodes with
            | none => .error .missingConfiguration
            | some es => .ok ((splitComma es).map (fun url => "http://" ++ url))
          else .ok elasticsearch_nodes := rfl
    rw [hred, heu]
    unfold get_elasticsearch_nodes
    rfl
  · intro hl
    unfold get_elasticsearch_nodes
    rw [hl]
    rfl

/-- C6 witness: with the explicit-ip daemon the resolver output is the same
for two different inventory functions and equals http://10.0.0.2:9200. -/
theorem C6_witness :
    get_elasticsearch_nodes { stEsIp with get_addr := fun _ => "other" } dsCollector =
      get_elasticsearch_nodes stEsIp dsCollector ∧
    get_elasticsearch_nodes stEsIp dsCollector = .ok ["http://10.0.0.2:9200"] :=
  ⟨(C6_amended stEsIp dsCollector).1 (by decide) (fun _ => "other"),
   (C6_amended stEsIp dsCollector).2 rfl⟩

theorem get_dependencies_error_iff (mgr : OrchState)
    (s : Option ServiceSpec) (dt : Option String) :
    JaegerAgentService.get_dependencies mgr s dt = .error .invariantViolation ↔
      collectorUrls (mgr.daemons JaegerCollectorService.TYPE) =
        .error .invariantViolation := by
  unfold JaegerAgentService.get_dependencies
  cases hc : collectorUrls (mgr.daemons JaegerCollectorService.TYPE) with
  | error e => simp
  | ok c => simp

theorem get_elasticsearch_nodes_error_iff (mgr : OrchState)
    (ds : CephadmDaemonDeploySpec) :
    get_elasticsearch_nodes mgr ds = .error .invariantViolation ↔
      esUrls mgr.get_addr (mgr.daemons ElasticSearchService.TYPE) =
        .error .invariantViolation := by
  unfold get_elasticsearch_nodes
  cases hc : esUrls mgr.get_addr (mgr.daemons ElasticSearchService.TYPE) with
  | error e => simp
  | ok c =>
    cases hes : (mgr.active_specs ds.service_name).es_nodes <;>
      by_cases hz : c.length = 0 <;>
      simp [hz, hes]

/-- C7 (counterexample): a collector record whose hostname is the empty
string, which is not a non-empty string, is not rejected: resolution
proceeds and yields the endpoint ":14250" instead of failing with
invariantViolation. -/
theorem C7_counterexample :
    ddEmptyHost.hostname = some "" ∧
    JaegerAgentService.get_dependencies stEmptyHost none none = .ok [":14250"] ∧
    (Except.ok [":14250"] : Except JError (List String)) ≠
      .error .invariantViolation := by
  exact ⟨rfl, by decide, by decide⟩

/-- C7 (amended): endpoint resolution fails with invariantViolation exactly
when some matching record's hostname is absent (None); any record whose
hostname is present proceeds normally, the empty string included — the
code checks only for absence, not for non-emptiness. -/
theorem C7_amended (mgr : OrchState) (ds : CephadmDaemonDeploySpec) :
    (JaegerAgentService.get_dependencies mgr none none =
        .error .invariantViolation ↔
      ∃ dd ∈ mgr.daemons JaegerCollectorService.TYPE, dd.hostname = none) ∧
    (get_elasticsearch_nodes mgr ds = .error .invariantViolation ↔
      ∃ dd ∈ mgr.daemons ElasticSearchService.TYPE, dd.hostname = none) ∧
    ((∀ dd ∈ mgr.daemons JaegerCollectorService.TYPE, dd.hostname ≠ none) →
      ∃ deps, JaegerAgentService.get_dependencies mgr none none = .ok deps) := by
  refine ⟨?_, ?_, ?_⟩
  · rw [get_dependencies_error_iff]
    constructor
    · intro h
      by_contra hn
      push_neg at hn
      rw [collectorUrls_ok _ hn] at h
      simp at h
    · exact collectorUrls_error _
  · rw [get_elasticsearch_nodes_error_iff]
    constructor
    · intro h
      by_contra hn
      push_neg at hn
      rw [esUrls_ok _ _ hn] at h
      simp at h
    · exact esUrls_error _ _
  · intro h
    unfold JaegerAgentService.get_dependencies
    rw [collectorUrls_ok _ h]
    exact ⟨_, rfl⟩

/-- C7 witness: a record with an absent hostname does fail with
invariantViolation, and a record with an empty-string hostname resolves
successfully. -/
theorem C7_witness :
    JaegerAgentService.get_dependencies stNoneHost none none =
      .error .invariantViolation ∧
    ∃ deps, JaegerAgentService.get_dependencies stEmptyHost none none =
      .ok deps :=
  ⟨(C7_amended stNoneHost dsAgent).1.mpr ⟨ddNoneHost, by decide, rfl⟩,
   (C7_amended stEmptyHost dsAgent).2.2 (by decide)⟩

/-- C8: whenever any of the three builders fails with any error, the deploy
spec's final_config is exactly what it was before the call: no partially
populated configuration is ever emitted. -/
theorem C8 (mgr : OrchState) (ds : CephadmDaemonDeploySpec) (e : JError) :
    ((JaegerAgentService.prepare_create mgr ds).2 = some e →
      (JaegerAgentService.prepare_create mgr ds).1.final_config =
        ds.final_config) ∧
    ((JaegerCollectorService.prepare_create mgr ds).2 = some e →
      (JaegerCollectorService.prepare_create mgr ds).1.final_config =
        ds.final_config) ∧
    ((JaegerQueryService.prepare_create mgr ds).2 = some e →
      (JaegerQueryService.prepare_create mgr ds).1.final_config =
        ds.final_config) := by
  refine ⟨?_, ?_, ?_⟩
  · intro h
    by_cases hT : JaegerAgentService.TYPE = ds.daemon_type
    · cases hc : collectorUrls (mgr.daemons JaegerCollectorService.TYPE) with
      | error e2 =>
        unfold JaegerAgentService.prepare_create
        simp [hT, hc]
      | ok c =>
        rw [agent_prepare_create_ok mgr ds hT c hc] at h
        simp at h
    · unfold JaegerAgentService.prepare_create
      simp [hT]
  · intro h
    by_cases hT : JaegerCollectorService.TYPE = ds.daemon_type
    · cases hc : get_elasticsearch_nodes mgr ds with
      | error e2 =>
        unfold JaegerCollectorService.prepare_create
        simp [hT, hc]
      | ok nodes =>
        unfold JaegerCollectorService.prepare_create at h
        simp [hT, hc] at h
    · unfold JaegerCollectorService.prepare_create
      simp [hT]
  · intro h
    by_cases hT : JaegerQueryService.TYPE = ds.daemon_type
    · cases hc : get_elasticsearch_nodes mgr ds with
      | error e2 =>
        unfold JaegerQueryService.prepare_create
        simp [hT, hc]
      | ok nodes =>
        unfold JaegerQueryService.prepare_create at h
        simp [hT, hc] at h
    · unfold JaegerQueryService.prepare_create
      simp [hT]

/-- C8 witness: the agent builder failing on an absent hostname and the
collector and query builders failing with missingConfiguration all leave
final_config unset. -/
theorem C8_witness :
    (JaegerAgentService.prepare_create stNoneHost dsAgent).1.final_config =
      none ∧
    (JaegerCollectorService.prepare_create stNoEs dsCollector).1.final_config =
      none ∧
    (JaegerQueryService.prepare_create stNoEs dsQuery).1.final_config = none :=
  ⟨(C8 stNoneHost dsAgent .invariantViolation).1 (by decide),
   (C8 stNoEs dsCollector .missingConfiguration).2.1 (by decide),
   (C8 stNoEs dsQuery .missingConfiguration).2.2 (by decide)⟩

/-- C9: get_dependencies ignores its optional spec and daemon_type
arguments entirely: for any two values of each, the result over the same
snapshot is identical. -/
theorem C9 (mgr : OrchState) (s₁ s₂ : Option ServiceSpec)
    (d₁ d₂ : Option String) :
    JaegerAgentService.get_dependencies mgr s₁ d₁ =
      JaegerAgentService.get_dependencies mgr s₂ d₂ := rfl

/-- C10: the fallback path does not validate the es_nodes tokens: with no
elasticsearch daemons and es_nodes present but equal to the empty string,
resolution succeeds with ["http://"], and the collector and query builders
emit the configuration value elasticsearch_nodes = "http://". -/
theorem C10 (mgr : OrchState) (ds : CephadmDaemonDeploySpec)
    (hl : mgr.daemons ElasticSearchService.TYPE = [])
    (hes : (mgr.active_specs ds.service_name).es_nodes = some "") :
    get_elasticsearch_nodes mgr ds = .ok ["http://"] ∧
    (ds.daemon_type = JaegerCollectorService.TYPE →
      (JaegerCollectorService.prepare_create mgr ds).1.final_config =
        some [("elasticsearch_nodes", "http://")] ∧
      (JaegerCollectorService.prepare_create mgr ds).2 = none) ∧
    (ds.daemon_type = JaegerQueryService.TYPE →
      (JaegerQueryService.prepare_create mgr ds).1.final_config =
        some [("elasticsearch_nodes", "http://")] ∧
      (JaegerQueryService.prepare_create mgr ds).2 = none) := by
  have h1 : get_elasticsearch_nodes mgr ds = .ok ["http://"] := by
    unfold get_elasticsearch_nodes
    rw [hl]
    simp [esUrls, hes]
    decide
  refine ⟨h1, ?_, ?_⟩
  · intro hdt
    unfold JaegerCollectorService.prepare_create
    rw [if_neg (fun hn => hn hdt.symm), h1]
    exact ⟨rfl, rfl⟩
  · intro hdt
    unfold JaegerQueryService.prepare_create
    rw [if_neg (fun hn => hn hdt.symm), h1]
    exact ⟨rfl, rfl⟩

/-- C10 witness: the concrete snapshot with no daemons and an empty
es_nodes string. -/
theorem C10_witness :
    get_elasticsearch_nodes stFallbackEmpty dsCollector = .ok ["http://"] ∧
    (JaegerCollectorService.prepare_create stFallbackEmpty dsCollector).1.final_config =
      some [("elasticsearch_nodes", "http://")] :=
  ⟨(C10 stFallbackEmpty dsCollector rfl rfl).1,
   ((C10 stFallbackEmpty dsCollector rfl rfl).2.1 rfl).1⟩
